import Mathlib

/-!
Verification development for the ydb-go-sdk tracing bridge.

Shallow embedding of the two instrumented handler constructors of the
repository, `Retry` (src/retry.go) and `Scripting` (src/scripting.go).
Go errors are modelled as `Option String` (`none` = nil error, `some m` =
a non-nil error whose text is `m`).  The repository helpers `startSpan`,
`intermediate`, `finish` and the `safe` package are not part of the
source tree that was given; they are modelled from the specification
(sections 4.3 Attribute/Status Mapper and 4.4 Tracer Adapter) as
operations on an explicit tracer state that records every open,
annotate and close observation in order.
-/

namespace YdbOtel

/-- A span attribute value (string / boolean / integer), covering the
`otlog.String`, `attribute.Bool` and `attribute.Int` call sites. -/
inductive AttrValue where
  | str (s : String)
  | bool (b : Bool)
  | int (i : Int)
  deriving DecidableEq

/-- A keyed span attribute. -/
structure Attr where
  key : String
  value : AttrValue
  deriving DecidableEq

/-- Terminal span status: OK, or Error with a message. -/
inductive SpanStatus where
  | ok
  | error (msg : String)
  deriving DecidableEq

/-- One observation recorded by the tracer: a span open, a non-terminal
annotation of an open span, or a span close with its final status. -/
inductive TraceEvent where
  | openSpan (id : Nat) (name : String) (attrs : List Attr)
  | annotate (id : Nat) (err : Option String) (attrs : List Attr)
  | closeSpan (id : Nat) (status : SpanStatus) (attrs : List Attr)
  deriving DecidableEq

/-- A handle on one opened span. -/
structure Span where
  id : Nat
  deriving DecidableEq

/-- The observing tracer: the ordered log of events, the next fresh span
identifier, and the identifiers of the spans already closed. -/
structure Tracer where
  log : List TraceEvent
  nextId : Nat
  closed : List Nat
  deriving DecidableEq

/-- The tracer before any event was observed. -/
def initTracer : Tracer := ⟨[], 0, []⟩

/-- Modelled from the spec: the Tracer Adapter operation
`open(parentContext, name, attributes) -> (span, childContext)`
(the repository's `startSpan` helper is not under src/).  It records one
`openSpan` event and hands back a fresh span handle. -/
def startSpan (t : Tracer) (ctx : Nat) (name : String) (attrs : List Attr) :
    Tracer × Span :=
  (⟨t.log ++ [TraceEvent.openSpan t.nextId name attrs], t.nextId + 1, t.closed⟩,
   ⟨t.nextId⟩)

/-- Modelled from the spec: the Tracer Adapter operation
`annotate(span, attributes)` used by the repository's `intermediate`
helper (not under src/): it records a timestamped non-terminal
annotation carrying the incremental error and never closes the span. -/
def intermediate (t : Tracer) (s : Span) (err : Option String)
    (fields : List Attr) : Tracer :=
  ⟨t.log ++ [TraceEvent.annotate s.id err fields], t.nextId, t.closed⟩

/-- Modelled from the spec: status is derived strictly from error
presence - absent implies OK, present implies Error with the error's
text as message. -/
def statusOfErr : Option String → SpanStatus
  | none => SpanStatus.ok
  | some m => SpanStatus.error m

/-- Modelled from the spec: the Tracer Adapter operation
`close(span, error, attributes)` used by the repository's `finish`
helper (not under src/).  Closing a span that is already closed is a
no-op (the invariant of section 3: invoking the terminal continuation
twice must not double-close a span; the external tracer's end operation
is idempotent), otherwise one `closeSpan` event is recorded with the
status derived from the error. -/
def finish (t : Tracer) (s : Span) (err : Option String)
    (attrs : List Attr) : Tracer :=
  if t.closed.contains s.id then t
  else ⟨t.log ++ [TraceEvent.closeSpan s.id (statusOfErr err) attrs],
        t.nextId, s.id :: t.closed⟩

/-- A value submitted to the guarded formatter.  Its natural string
conversion either yields a string (`conv = some s`) or faults
(`conv = none`). -/
structure StringerVal where
  conv : Option String
  deriving DecidableEq

/-- The fixed sentinel string substituted when a conversion faults. -/
def stringerSentinel : String := "unknown"

/-- Modelled from the spec: the guarded formatter `safe.Stringer` (the
`safe` package is not under src/) - attempt the natural conversion; on
any failure substitute a fixed sentinel string; never propagate the
failure (it is a total function). -/
def safeStringer (v : StringerVal) : String :=
  match v.conv with
  | some s => s
  | none => stringerSentinel

/-- A describable result value carried by a done record; it may itself
carry an error. -/
structure ResultVal where
  resErr : Option String
  deriving DecidableEq

/-- Modelled from the spec: the guarded extractor `safe.Err` (the
`safe` package is not under src/) - extract the error carried by the
describable result value, guarding against an absent (nil) result. -/
def safeErr : Option ResultVal → Option String
  | none => none
  | some r => r.resErr

/-- trace.RetryLoopStartInfo: ambient context and the caller's declared
idempotency flag. -/
structure RetryLoopStartInfo where
  context : Nat
  idempotent : Bool
  deriving DecidableEq

/-- trace.RetryLoopIntermediateInfo: the incremental error. -/
structure RetryLoopIntermediateInfo where
  error : Option String
  deriving DecidableEq

/-- trace.RetryLoopDoneInfo: the final error and the final attempt
count. -/
structure RetryLoopDoneInfo where
  error : Option String
  attempts : Int
  deriving DecidableEq

/-- trace.ScriptingExecuteStartInfo: context, query text and the
parameters value handed to the guarded formatter. -/
structure ScriptingExecuteStartInfo where
  context : Nat
  query : String
  parameters : StringerVal
  deriving DecidableEq

/-- trace.ScriptingExecuteDoneInfo: the driver error and the
describable result value. -/
structure ScriptingExecuteDoneInfo where
  error : Option String
  result : Option ResultVal
  deriving DecidableEq

/-- trace.ScriptingStreamExecuteStartInfo. -/
structure ScriptingStreamExecuteStartInfo where
  context : Nat
  query : String
  parameters : StringerVal
  deriving DecidableEq

/-- trace.ScriptingStreamExecuteIntermediateInfo. -/
structure ScriptingStreamExecuteIntermediateInfo where
  error : Option String
  deriving DecidableEq

/-- trace.ScriptingStreamExecuteDoneInfo. -/
structure ScriptingStreamExecuteDoneInfo where
  error : Option String
  deriving DecidableEq

/-- trace.ScriptingExplainStartInfo. -/
structure ScriptingExplainStartInfo where
  context : Nat
  query : String
  deriving DecidableEq

/-- trace.ScriptingExplainDoneInfo. -/
structure ScriptingExplainDoneInfo where
  error : Option String
  deriving DecidableEq

/-- trace.ScriptingCloseStartInfo. -/
structure ScriptingCloseStartInfo where
  context : Nat
  deriving DecidableEq

/-- trace.ScriptingCloseDoneInfo. -/
structure ScriptingCloseDoneInfo where
  error : Option String
  deriving DecidableEq

/-- The two continuations a streaming start handler yields: the
intermediate handler (which itself returns a terminal continuation) and
the terminal continuation.  In the Go source both are closures over the
same span; every intermediate invocation returns the one terminal
continuation, so it is exposed alongside (`onDone`). -/
structure StreamHandlers (I D : Type) where
  onIntermediate : I → Tracer → Tracer × (D → Tracer → Tracer)
  onDone : D → Tracer → Tracer

/-- src/retry.go lines 19-24: the terminal closure of the retry chain -
`finish(start, info.Error, attribute.Int("attempts", info.Attempts))`. -/
def retryDone (s : Span) (info : RetryLoopDoneInfo) (t : Tracer) : Tracer :=
  finish t s info.error [⟨"attempts", AttrValue.int info.attempts⟩]

/-- src/retry.go lines 17-25: the intermediate closure of the retry
chain - `intermediate(start, info.Error)` then return the terminal
closure. -/
def retryIntermediate (s : Span) (info : RetryLoopIntermediateInfo)
    (t : Tracer) : Tracer × (RetryLoopDoneInfo → Tracer → Tracer) :=
  (intermediate t s info.error [], retryDone s)

/-- src/retry.go lines 11-26: the `OnRetry` start handler - open the
span "ydb_retry" with the boolean "idempotent" attribute taken from the
start record, and return the intermediate handler closed over it. -/
def onRetry (info : RetryLoopStartInfo) (t : Tracer) :
    Tracer × StreamHandlers RetryLoopIntermediateInfo RetryLoopDoneInfo :=
  let p := startSpan t info.context "ydb_retry"
    [⟨"idempotent", AttrValue.bool info.idempotent⟩]
  (p.1, ⟨retryIntermediate p.2, retryDone p.2⟩)

/-- src/scripting.go lines 17-29: the terminal closure of the execute
chain - if the driver error is nil, finish with the error extracted
from the result by the guarded helper, else finish with the driver
error. -/
def scriptingExecuteDone (s : Span) (info : ScriptingExecuteDoneInfo)
    (t : Tracer) : Tracer :=
  match info.error with
  | none => finish t s (safeErr info.result) []
  | some e => finish t s (some e) []

/-- src/scripting.go lines 10-30: the `OnExecute` start handler - open
the span "ydb_scripting_execute" with the query text and the guarded
stringification of the parameters, and return the terminal closure. -/
def onExecute (info : ScriptingExecuteStartInfo) (t : Tracer) :
    Tracer × (ScriptingExecuteDoneInfo → Tracer → Tracer) :=
  let p := startSpan t info.context "ydb_scripting_execute"
    [⟨"query", AttrValue.str info.query⟩,
     ⟨"params", AttrValue.str (safeStringer info.parameters)⟩]
  (p.1, scriptingExecuteDone p.2)

/-- src/scripting.go lines 50-52: the terminal closure of the
stream-execute chain - `finish(start, info.Error)`. -/
def scriptingStreamDone (s : Span) (info : ScriptingStreamExecuteDoneInfo)
    (t : Tracer) : Tracer :=
  finish t s info.error []

/-- src/scripting.go lines 44-53: the intermediate closure of the
stream-execute chain - `intermediate(start, info.Error)` then return
the terminal closure. -/
def scriptingStreamIntermediate (s : Span)
    (info : ScriptingStreamExecuteIntermediateInfo) (t : Tracer) :
    Tracer × (ScriptingStreamExecuteDoneInfo → Tracer → Tracer) :=
  (intermediate t s info.error [], scriptingStreamDone s)

/-- src/scripting.go lines 31-54: the `OnStreamExecute` start handler -
open the span "ydb_scripting_stream_execute" with the query text and
the guarded stringification of the parameters, and return the
intermediate handler closed over it. -/
def onStreamExecute (info : ScriptingStreamExecuteStartInfo) (t : Tracer) :
    Tracer × StreamHandlers ScriptingStreamExecuteIntermediateInfo
      ScriptingStreamExecuteDoneInfo :=
  let p := startSpan t info.context "ydb_scripting_stream_execute"
    [⟨"query", AttrValue.str info.query⟩,
     ⟨"params", AttrValue.str (safeStringer info.parameters)⟩]
  (p.1, ⟨scriptingStreamIntermediate p.2, scriptingStreamDone p.2⟩)

/-- src/scripting.go lines 61-63: the terminal closure of the explain
chain. -/
def scriptingExplainDone (s : Span) (info : ScriptingExplainDoneInfo)
    (t : Tracer) : Tracer :=
  finish t s info.error []

/-- src/scripting.go lines 55-64: the `OnExplain` start handler. -/
def onExplain (info : ScriptingExplainStartInfo) (t : Tracer) :
    Tracer × (ScriptingExplainDoneInfo → Tracer → Tracer) :=
  let p := startSpan t info.context "ydb_scripting_explain"
    [⟨"query", AttrValue.str info.query⟩]
  (p.1, scriptingExplainDone p.2)

/-- src/scripting.go lines 70-72: the terminal closure of the close
chain. -/
def scriptingCloseDone (s : Span) (info : ScriptingCloseDoneInfo)
    (t : Tracer) : Tracer :=
  finish t s info.error []

/-- src/scripting.go lines 65-73: the `OnClose` start handler. -/
def onClose (info : ScriptingCloseStartInfo) (t : Tracer) :
    Tracer × (ScriptingCloseDoneInfo → Tracer → Tracer) :=
  let p := startSpan t info.context "ydb_scripting_close" []
  (p.1, scriptingCloseDone p.2)

/-- The detail bit of the retry-loop kind (`trace.RetryEvents`).  The
bit positions live in the external driver; only that each kind owns a
fixed nonzero bit matters here. -/
def RetryEvents : Nat := 2 ^ 4

/-- The detail bit of the scripting kind (`trace.ScriptingEvents`). -/
def ScriptingEvents : Nat := 2 ^ 10

/-- trace.Retry: the handler struct returned by the `Retry`
constructor; the `OnRetry` field is nil (`none`) when not installed. -/
structure RetryTrace where
  OnRetry : Option (RetryLoopStartInfo → Tracer →
    Tracer × StreamHandlers RetryLoopIntermediateInfo RetryLoopDoneInfo)

/-- src/retry.go lines 9-28: the `Retry` constructor - install the
`OnRetry` handler exactly when the retry detail bit is set in the mask,
otherwise return the zero-value struct. -/
def Retry (details : Nat) : RetryTrace :=
  if details &&& RetryEvents ≠ 0 then ⟨some onRetry⟩ else ⟨none⟩

/-- trace.Scripting: the handler struct returned by the `Scripting`
constructor; handler fields are nil (`none`) when not installed. -/
structure ScriptingTrace where
  OnExecute : Option (ScriptingExecuteStartInfo → Tracer →
    Tracer × (ScriptingExecuteDoneInfo → Tracer → Tracer))
  OnStreamExecute : Option (ScriptingStreamExecuteStartInfo → Tracer →
    Tracer × StreamHandlers ScriptingStreamExecuteIntermediateInfo
      ScriptingStreamExecuteDoneInfo)
  OnExplain : Option (ScriptingExplainStartInfo → Tracer →
    Tracer × (ScriptingExplainDoneInfo → Tracer → Tracer))
  OnClose : Option (ScriptingCloseStartInfo → Tracer →
    Tracer × (ScriptingCloseDoneInfo → Tracer → Tracer))

/-- src/scripting.go lines 8-76: the `Scripting` constructor - install
all four handlers exactly when the scripting detail bit is set in the
mask, otherwise return the zero-value struct. -/
def Scripting (details : Nat) : ScriptingTrace :=
  if details &&& ScriptingEvents ≠ 0 then
    ⟨some onExecute, some onStreamExecute, some onExplain, some onClose⟩
  else ⟨none, none, none, none⟩

/-- Modelled from the spec: the driver protocol for a streaming chain
(driver dispatch code is not part of this repository) - deliver the N
intermediate records to the intermediate handler in order, then deliver
the done record, distinguishable only by its record type, to the
chain's terminal continuation (every intermediate invocation returns
that same terminal continuation, see `streamHandlers_coherent` below). -/
def runStream {I D : Type} (h : StreamHandlers I D) (recs : List I) (d : D)
    (t : Tracer) : Tracer :=
  h.onDone d (recs.foldl (fun acc r => (h.onIntermediate r acc).1) t)

/-- The same protocol with the terminal continuation invoked twice. -/
def runStreamTwice {I D : Type} (h : StreamHandlers I D) (recs : List I)
    (d1 d2 : D) (t : Tracer) : Tracer :=
  h.onDone d2 (h.onDone d1 (recs.foldl (fun acc r => (h.onIntermediate r acc).1) t))

/-- Modelled from the spec: driver dispatch through a possibly-nil
handler field - a nil handler means the kind is disabled and the event
is not delivered at all. -/
def runRetryTrace (tr : RetryTrace) (s : RetryLoopStartInfo)
    (recs : List RetryLoopIntermediateInfo) (d : RetryLoopDoneInfo)
    (t : Tracer) : Tracer :=
  match tr.OnRetry with
  | none => t
  | some f => runStream (f s t).2 recs d (f s t).1

/-- The retry chain with the terminal continuation invoked twice. -/
def runRetryTraceTwice (tr : RetryTrace) (s : RetryLoopStartInfo)
    (recs : List RetryLoopIntermediateInfo) (d1 d2 : RetryLoopDoneInfo)
    (t : Tracer) : Tracer :=
  match tr.OnRetry with
  | none => t
  | some f => runStreamTwice (f s t).2 recs d1 d2 (f s t).1

/-- Driver dispatch of a full stream-execute chain through the trace
struct. -/
def runStreamExecuteTrace (tr : ScriptingTrace)
    (s : ScriptingStreamExecuteStartInfo)
    (recs : List ScriptingStreamExecuteIntermediateInfo)
    (d : ScriptingStreamExecuteDoneInfo) (t : Tracer) : Tracer :=
  match tr.OnStreamExecute with
  | none => t
  | some f => runStream (f s t).2 recs d (f s t).1

/-- The stream-execute chain with the terminal continuation invoked
twice. -/
def runStreamExecuteTraceTwice (tr : ScriptingTrace)
    (s : ScriptingStreamExecuteStartInfo)
    (recs : List ScriptingStreamExecuteIntermediateInfo)
    (d1 d2 : ScriptingStreamExecuteDoneInfo) (t : Tracer) : Tracer :=
  match tr.OnStreamExecute with
  | none => t
  | some f => runStreamTwice (f s t).2 recs d1 d2 (f s t).1

/-- Driver dispatch of a full execute chain (start then done) through
the trace struct. -/
def runExecuteTrace (tr : ScriptingTrace) (s : ScriptingExecuteStartInfo)
    (d : ScriptingExecuteDoneInfo) (t : Tracer) : Tracer :=
  match tr.OnExecute with
  | none => t
  | some f => (f s t).2 d (f s t).1

/-- The execute chain with the terminal continuation invoked twice. -/
def runExecuteTraceTwice (tr : ScriptingTrace)
    (s : ScriptingExecuteStartInfo) (d1 d2 : ScriptingExecuteDoneInfo)
    (t : Tracer) : Tracer :=
  match tr.OnExecute with
  | none => t
  | some f => (f s t).2 d2 ((f s t).2 d1 (f s t).1)

/-- Driver dispatch of a full explain chain through the trace struct. -/
def runExplainTrace (tr : ScriptingTrace) (s : ScriptingExplainStartInfo)
    (d : ScriptingExplainDoneInfo) (t : Tracer) : Tracer :=
  match tr.OnExplain with
  | none => t
  | some f => (f s t).2 d (f s t).1

/-- The explain chain with the terminal continuation invoked twice. -/
def runExplainTraceTwice (tr : ScriptingTrace)
    (s : ScriptingExplainStartInfo) (d1 d2 : ScriptingExplainDoneInfo)
    (t : Tracer) : Tracer :=
  match tr.OnExplain with
  | none => t
  | some f => (f s t).2 d2 ((f s t).2 d1 (f s t).1)

/-- Driver dispatch of a full close chain through the trace struct. -/
def runCloseTrace (tr : ScriptingTrace) (s : ScriptingCloseStartInfo)
    (d : ScriptingCloseDoneInfo) (t : Tracer) : Tracer :=
  match tr.OnClose with
  | none => t
  | some f => (f s t).2 d (f s t).1

/-- The close chain with the terminal continuation invoked twice. -/
def runCloseTraceTwice (tr : ScriptingTrace) (s : ScriptingCloseStartInfo)
    (d1 d2 : ScriptingCloseDoneInfo) (t : Tracer) : Tracer :=
  match tr.OnClose with
  | none => t
  | some f => (f s t).2 d2 ((f s t).2 d1 (f s t).1)

/-- Recognizer for close events. -/
def isClose : TraceEvent → Bool
  | TraceEvent.closeSpan _ _ _ => true
  | _ => false

/-- Recognizer for open events. -/
def isOpen : TraceEvent → Bool
  | TraceEvent.openSpan _ _ _ => true
  | _ => false

/-- Recognizer for annotate events. -/
def isAnnotate : TraceEvent → Bool
  | TraceEvent.annotate _ _ _ => true
  | _ => false

/-- How many close events a log holds. -/
def countClose (l : List TraceEvent) : Nat := (l.filter isClose).length

/-- How many open events a log holds. -/
def countOpen (l : List TraceEvent) : Nat := (l.filter isOpen).length

/-- How many annotate events a log holds. -/
def countAnnotate (l : List TraceEvent) : Nat := (l.filter isAnnotate).length

/-- The attributes carried by an event. -/
def TraceEvent.attrs : TraceEvent → List Attr
  | TraceEvent.openSpan _ _ a => a
  | TraceEvent.annotate _ _ a => a
  | TraceEvent.closeSpan _ _ a => a

/-- Does an attribute list carry the given key. -/
def hasAttr (key : String) (attrs : List Attr) : Bool :=
  attrs.any (fun a => a.key == key)

/-- How many events of a log write an attribute with the given key. -/
def countAttrEvents (key : String) (l : List TraceEvent) : Nat :=
  (l.filter (fun e => hasAttr key e.attrs)).length

/-- The status of each close event of a log, in order. -/
def TraceEvent.closeStatus : TraceEvent → Option SpanStatus
  | TraceEvent.closeSpan _ st _ => some st
  | _ => none

/-- The list of terminal statuses a log records, in order. -/
def closeStatuses (l : List TraceEvent) : List SpanStatus :=
  l.filterMap TraceEvent.closeStatus

/-- The effective error the execute done closure hands to the tracer:
the driver error when non-nil, otherwise the error extracted from the
result by the guarded helper. -/
def executeFinalErr (d : ScriptingExecuteDoneInfo) : Option String :=
  match d.error with
  | none => safeErr d.result
  | some e => some e

lemma scriptingExecuteDone_eq (s : Span) (d : ScriptingExecuteDoneInfo)
    (t : Tracer) :
    scriptingExecuteDone s d t = finish t s (executeFinalErr d) [] := by
  cases hd : d.error <;> simp [scriptingExecuteDone, executeFinalErr, hd]

lemma streamHandlers_coherent (s1 : ScriptingStreamExecuteStartInfo)
    (s2 : RetryLoopStartInfo) (t : Tracer) :
    (∀ r u, (((onStreamExecute s1 t).2).onIntermediate r u).2 =
      ((onStreamExecute s1 t).2).onDone) ∧
    (∀ r u, (((onRetry s2 t).2).onIntermediate r u).2 =
      ((onRetry s2 t).2).onDone) :=
  ⟨fun _ _ => rfl, fun _ _ => rfl⟩

lemma foldl_intermediate_eq {I : Type} (g : I → Option String) (sp : Span)
    (recs : List I) (t : Tracer) :
    recs.foldl (fun acc r => intermediate acc sp (g r) []) t =
      ⟨t.log ++ recs.map (fun r => TraceEvent.annotate sp.id (g r) []),
       t.nextId, t.closed⟩ := by
  induction recs generalizing t with
  | nil => simp
  | cons r rs ih =>
      rw [List.foldl_cons, ih]
      simp [intermediate, List.append_assoc]

lemma retry_foldl (sp : Span) (recs : List RetryLoopIntermediateInfo)
    (t : Tracer) :
    recs.foldl (fun acc r => (retryIntermediate sp r acc).1) t =
      ⟨t.log ++ recs.map (fun r => TraceEvent.annotate sp.id r.error []),
       t.nextId, t.closed⟩ := by
  exact foldl_intermediate_eq
    (fun r : RetryLoopIntermediateInfo => r.error) sp recs t

lemma stream_foldl (sp : Span)
    (recs : List ScriptingStreamExecuteIntermediateInfo) (t : Tracer) :
    recs.foldl (fun acc r => (scriptingStreamIntermediate sp r acc).1) t =
      ⟨t.log ++ recs.map (fun r => TraceEvent.annotate sp.id r.error []),
       t.nextId, t.closed⟩ := by
  exact foldl_intermediate_eq
    (fun r : ScriptingStreamExecuteIntermediateInfo => r.error) sp recs t

lemma Retry_enabled {details : Nat} (h : details &&& RetryEvents ≠ 0) :
    Retry details = ⟨some onRetry⟩ := by
  simp [Retry, h]

lemma Retry_disabled {details : Nat} (h : details &&& RetryEvents = 0) :
    Retry details = ⟨none⟩ := by
  simp [Retry, h]

lemma Scripting_enabled {details : Nat} (h : details &&& ScriptingEvents ≠ 0) :
    Scripting details =
      ⟨some onExecute, some onStreamExecute, some onExplain, some onClose⟩ := by
  simp [Scripting, h]

lemma Scripting_disabled {details : Nat} (h : details &&& ScriptingEvents = 0) :
    Scripting details = ⟨none, none, none, none⟩ := by
  simp [Scripting, h]

lemma runRetry_enabled (s : RetryLoopStartInfo)
    (recs : List RetryLoopIntermediateInfo) (d : RetryLoopDoneInfo) :
    runRetryTrace ⟨some onRetry⟩ s recs d initTracer =
      ⟨TraceEvent.openSpan 0 "ydb_retry"
          [⟨"idempotent", AttrValue.bool s.idempotent⟩] ::
        (recs.map (fun r => TraceEvent.annotate 0 r.error []) ++
         [TraceEvent.closeSpan 0 (statusOfErr d.error)
           [⟨"attempts", AttrValue.int d.attempts⟩]]),
       1, [0]⟩ := by
  simp [runRetryTrace, runStream, onRetry, startSpan, initTracer, retry_foldl,
    retryDone, finish]

lemma runRetryTwice_enabled (s : RetryLoopStartInfo)
    (recs : List RetryLoopIntermediateInfo) (d1 d2 : RetryLoopDoneInfo) :
    runRetryTraceTwice ⟨some onRetry⟩ s recs d1 d2 initTracer =
      ⟨TraceEvent.openSpan 0 "ydb_retry"
          [⟨"idempotent", AttrValue.bool s.idempotent⟩] ::
        (recs.map (fun r => TraceEvent.annotate 0 r.error []) ++
         [TraceEvent.closeSpan 0 (statusOfErr d1.error)
           [⟨"attempts", AttrValue.int d1.attempts⟩]]),
       1, [0]⟩ := by
  simp [runRetryTraceTwice, runStreamTwice, onRetry, startSpan, initTracer,
    retry_foldl, retryDone, finish]

lemma runStreamExecute_enabled (s : ScriptingStreamExecuteStartInfo)
    (recs : List ScriptingStreamExecuteIntermediateInfo)
    (d : ScriptingStreamExecuteDoneInfo) :
    runStreamExecuteTrace
        ⟨some onExecute, some onStreamExecute, some onExplain, some onClose⟩
        s recs d initTracer =
      ⟨TraceEvent.openSpan 0 "ydb_scripting_stream_execute"
          [⟨"query", AttrValue.str s.query⟩,
           ⟨"params", AttrValue.str (safeStringer s.parameters)⟩] ::
        (recs.map (fun r => TraceEvent.annotate 0 r.error []) ++
         [TraceEvent.closeSpan 0 (statusOfErr d.error) []]),
       1, [0]⟩ := by
  simp [runStreamExecuteTrace, runStream, onStreamExecute, startSpan,
    initTracer, stream_foldl, scriptingStreamDone, finish]

lemma runStreamExecuteTwice_enabled (s : ScriptingStreamExecuteStartInfo)
    (recs : List ScriptingStreamExecuteIntermediateInfo)
    (d1 d2 : ScriptingStreamExecuteDoneInfo) :
    runStreamExecuteTraceTwice
        ⟨some onExecute, some onStreamExecute, some onExplain, some onClose⟩
        s recs d1 d2 initTracer =
      ⟨TraceEvent.openSpan 0 "ydb_scripting_stream_execute"
          [⟨"query", AttrValue.str s.query⟩,
           ⟨"params", AttrValue.str (safeStringer s.parameters)⟩] ::
        (recs.map (fun r => TraceEvent.annotate 0 r.error []) ++
         [TraceEvent.closeSpan 0 (statusOfErr d1.error) []]),
       1, [0]⟩ := by
  simp [runStreamExecuteTraceTwice, runStreamTwice, onStreamExecute, startSpan,
    initTracer, stream_foldl, scriptingStreamDone, finish]

lemma runExecute_enabled (s : ScriptingExecuteStartInfo)
    (d : ScriptingExecuteDoneInfo) :
    runExecuteTrace
        ⟨some onExecute, some onStreamExecute, some onExplain, some onClose⟩
        s d initTracer =
      ⟨[TraceEvent.openSpan 0 "ydb_scripting_execute"
          [⟨"query", AttrValue.str s.query⟩,
           ⟨"params", AttrValue.str (safeStringer s.parameters)⟩],
        TraceEvent.closeSpan 0 (statusOfErr (executeFinalErr d)) []],
       1, [0]⟩ := by
  simp [runExecuteTrace, onExecute, startSpan, initTracer,
    scriptingExecuteDone_eq, finish]

lemma runExecuteTwice_enabled (s : ScriptingExecuteStartInfo)
    (d1 d2 : ScriptingExecuteDoneInfo) :
    runExecuteTraceTwice
        ⟨some onExecute, some onStreamExecute, some onExplain, some onClose⟩
        s d1 d2 initTracer =
      ⟨[TraceEvent.openSpan 0 "ydb_scripting_execute"
          [⟨"query", AttrValue.str s.query⟩,
           ⟨"params", AttrValue.str (safeStringer s.parameters)⟩],
        TraceEvent.closeSpan 0 (statusOfErr (executeFinalErr d1)) []],
       1, [0]⟩ := by
  simp [runExecuteTraceTwice, onExecute, startSpan, initTracer,
    scriptingExecuteDone_eq, finish]

lemma runExplain_enabled (s : ScriptingExplainStartInfo)
    (d : ScriptingExplainDoneInfo) :
    runExplainTrace
        ⟨some onExecute, some onStreamExecute, some onExplain, some onClose⟩
        s d initTracer =
      ⟨[TraceEvent.openSpan 0 "ydb_scripting_explain"
          [⟨"query", AttrValue.str s.query⟩],
        TraceEvent.closeSpan 0 (statusOfErr d.error) []],
       1, [0]⟩ := by
  simp [runExplainTrace, onExplain, startSpan, initTracer,
    scriptingExplainDone, finish]

lemma runExplainTwice_enabled (s : ScriptingExplainStartInfo)
    (d1 d2 : ScriptingExplainDoneInfo) :
    runExplainTraceTwice
        ⟨some onExecute, some onStreamExecute, some onExplain, some onClose⟩
        s d1 d2 initTracer =
      ⟨[TraceEvent.openSpan 0 "ydb_scripting_explain"
          [⟨"query", AttrValue.str s.query⟩],
        TraceEvent.closeSpan 0 (statusOfErr d1.error) []],
       1, [0]⟩ := by
  simp [runExplainTraceTwice, onExplain, startSpan, initTracer,
    scriptingExplainDone, finish]

lemma runClose_enabled (s : ScriptingCloseStartInfo)
    (d : ScriptingCloseDoneInfo) :
    runCloseTrace
        ⟨some onExecute, some onStreamExecute, some onExplain, some onClose⟩
        s d initTracer =
      ⟨[TraceEvent.openSpan 0 "ydb_scripting_close" [],
        TraceEvent.closeSpan 0 (statusOfErr d.error) []],
       1, [0]⟩ := by
  simp [runCloseTrace, onClose, startSpan, initTracer,
    scriptingCloseDone, finish]

lemma runCloseTwice_enabled (s : ScriptingCloseStartInfo)
    (d1 d2 : ScriptingCloseDoneInfo) :
    runCloseTraceTwice
        ⟨some onExecute, some onStreamExecute, some onExplain, some onClose⟩
        s d1 d2 initTracer =
      ⟨[TraceEvent.openSpan 0 "ydb_scripting_close" [],
        TraceEvent.closeSpan 0 (statusOfErr d1.error) []],
       1, [0]⟩ := by
  simp [runCloseTraceTwice, onClose, startSpan, initTracer,
    scriptingCloseDone, finish]

lemma filter_annotates_isClose {I : Type} (g : I → Option String) (i : Nat)
    (recs : List I) :
    (recs.map (fun r => TraceEvent.annotate i (g r) [])).filter isClose
      = [] := by
  induction recs with
  | nil => rfl
  | cons r rs ih => simp [isClose, ih]

lemma filter_annotates_isOpen {I : Type} (g : I → Option String) (i : Nat)
    (recs : List I) :
    (recs.map (fun r => TraceEvent.annotate i (g r) [])).filter isOpen
      = [] := by
  induction recs with
  | nil => rfl
  | cons r rs ih => simp [isOpen, ih]

lemma filter_annotates_isAnnotate {I : Type} (g : I → Option String) (i : Nat)
    (recs : List I) :
    (recs.map (fun r => TraceEvent.annotate i (g r) [])).filter isAnnotate
      = recs.map (fun r => TraceEvent.annotate i (g r) []) := by
  induction recs with
  | nil => rfl
  | cons r rs ih => simp [isAnnotate, ih]

lemma filter_annotates_hasAttr {I : Type} (k : String)
    (g : I → Option String) (i : Nat) (recs : List I) :
    (recs.map (fun r => TraceEvent.annotate i (g r) [])).filter
      (fun e => hasAttr k e.attrs) = [] := by
  induction recs with
  | nil => rfl
  | cons r rs ih => simp [hasAttr, TraceEvent.attrs, ih]

lemma filterMap_closeStatus_annotates {I : Type} (g : I → Option String)
    (i : Nat) (recs : List I) :
    (recs.map (fun r => TraceEvent.annotate i (g r) [])).filterMap
      TraceEvent.closeStatus = [] := by
  induction recs with
  | nil => rfl
  | cons r rs ih => simp [TraceEvent.closeStatus, ih]

lemma counts_chain_log {I : Type} (g : I → Option String) (i : Nat)
    (nm : String) (a1 : List Attr) (st : SpanStatus) (a2 : List Attr)
    (recs : List I) :
    countOpen (TraceEvent.openSpan i nm a1 ::
        (recs.map (fun r => TraceEvent.annotate i (g r) []) ++
         [TraceEvent.closeSpan i st a2])) = 1 ∧
    countAnnotate (TraceEvent.openSpan i nm a1 ::
        (recs.map (fun r => TraceEvent.annotate i (g r) []) ++
         [TraceEvent.closeSpan i st a2])) = recs.length ∧
    countClose (TraceEvent.openSpan i nm a1 ::
        (recs.map (fun r => TraceEvent.annotate i (g r) []) ++
         [TraceEvent.closeSpan i st a2])) = 1 := by
  refine ⟨?_, ?_, ?_⟩ <;>
    simp [countOpen, countAnnotate, countClose, isOpen, isAnnotate, isClose,
      List.filter_append, filter_annotates_isOpen, filter_annotates_isAnnotate,
      filter_annotates_isClose]

lemma closeStatuses_chain_log {I : Type} (g : I → Option String) (i : Nat)
    (nm : String) (a1 : List Attr) (st : SpanStatus) (a2 : List Attr)
    (recs : List I) :
    closeStatuses (TraceEvent.openSpan i nm a1 ::
        (recs.map (fun r => TraceEvent.annotate i (g r) []) ++
         [TraceEvent.closeSpan i st a2])) = [st] := by
  simp [closeStatuses, List.filterMap_append, TraceEvent.closeStatus,
    filterMap_closeStatus_annotates]

/-- C2: for every mask in which an operation kind's detail bit is clear,
the constructor for that kind returns a struct with no installed handler
for that kind, so for any sequence of start/intermediate/done calls
(terminal continuation possibly invoked twice) no span is ever opened,
no tracer event is observed, and every continuation behaves as a no-op:
the tracer is left exactly unchanged. -/
theorem c2_disabled_kind_noop (details : Nat) (t : Tracer)
    (s1 : RetryLoopStartInfo) (recs1 : List RetryLoopIntermediateInfo)
    (d1 d1b : RetryLoopDoneInfo)
    (s2 : ScriptingStreamExecuteStartInfo)
    (recs2 : List ScriptingStreamExecuteIntermediateInfo)
    (d2 d2b : ScriptingStreamExecuteDoneInfo)
    (s3 : ScriptingExecuteStartInfo) (d3 d3b : ScriptingExecuteDoneInfo)
    (s4 : ScriptingExplainStartInfo) (d4 d4b : ScriptingExplainDoneInfo)
    (s5 : ScriptingCloseStartInfo) (d5 d5b : ScriptingCloseDoneInfo) :
    (details &&& RetryEvents = 0 →
      (Retry details).OnRetry = none ∧
      runRetryTrace (Retry details) s1 recs1 d1 t = t ∧
      runRetryTraceTwice (Retry details) s1 recs1 d1 d1b t = t) ∧
    (details &&& ScriptingEvents = 0 →
      (Scripting details).OnExecute = none ∧
      (Scripting details).OnStreamExecute = none ∧
      (Scripting details).OnExplain = none ∧
      (Scripting details).OnClose = none ∧
      runExecuteTrace (Scripting details) s3 d3 t = t ∧
      runExecuteTraceTwice (Scripting details) s3 d3 d3b t = t ∧
      runStreamExecuteTrace (Scripting details) s2 recs2 d2 t = t ∧
      runStreamExecuteTraceTwice (Scripting details) s2 recs2 d2 d2b t = t ∧
      runExplainTrace (Scripting details) s4 d4 t = t ∧
      runExplainTraceTwice (Scripting details) s4 d4 d4b t = t ∧
      runCloseTrace (Scripting details) s5 d5 t = t ∧
      runCloseTraceTwice (Scripting details) s5 d5 d5b t = t) := by
  constructor
  · intro h
    rw [Retry_disabled h]
    exact ⟨rfl, rfl, rfl⟩
  · intro h
    rw [Scripting_disabled h]
    exact ⟨rfl, rfl, rfl, rfl, rfl, rfl, rfl, rfl, rfl, rfl, rfl, rfl⟩

/-- Witness for C2, at the all-clear mask 0 and a concrete call
sequence. -/
theorem c2_disabled_kind_noop_witness :
    (Retry 0).OnRetry = none ∧
    runRetryTrace (Retry 0) ⟨7, true⟩ [⟨some "x"⟩] ⟨none, 3⟩ initTracer =
      initTracer ∧
    (Scripting 0).OnExecute = none ∧
    runStreamExecuteTrace (Scripting 0) ⟨7, "q", ⟨some "p"⟩⟩ [⟨none⟩]
      ⟨some "y"⟩ initTracer = initTracer := by
  have h := c2_disabled_kind_noop 0 initTracer ⟨7, true⟩ [⟨some "x"⟩]
    ⟨none, 3⟩ ⟨none, 3⟩ ⟨7, "q", ⟨some "p"⟩⟩ [⟨none⟩] ⟨some "y"⟩ ⟨some "y"⟩
    ⟨7, "q", ⟨some "p"⟩⟩ ⟨none, none⟩ ⟨none, none⟩ ⟨7, "q"⟩ ⟨none⟩ ⟨none⟩
    ⟨7⟩ ⟨none⟩ ⟨none⟩
  obtain ⟨hr, hs⟩ := h
  have hr2 := hr (by decide)
  have hs2 := hs (by decide)
  exact ⟨hr2.1, hr2.2.1, hs2.1, hs2.2.2.2.2.2.2.1⟩

/-- C10: the constructors `Retry` and `Scripting` are total functions
of the mask; each handler field is installed (non-nil) exactly when the
corresponding detail bit is set, and when the bit is clear the
zero-value struct with nil handler fields is returned. -/
theorem c10_constructor_fields (details : Nat) :
    ((Retry details).OnRetry.isSome ↔ details &&& RetryEvents ≠ 0) ∧
    ((Scripting details).OnExecute.isSome ↔
      details &&& ScriptingEvents ≠ 0) ∧
    ((Scripting details).OnStreamExecute.isSome ↔
      details &&& ScriptingEvents ≠ 0) ∧
    ((Scripting details).OnExplain.isSome ↔
      details &&& ScriptingEvents ≠ 0) ∧
    ((Scripting details).OnClose.isSome ↔
      details &&& ScriptingEvents ≠ 0) ∧
    (details &&& RetryEvents = 0 → Retry details = ⟨none⟩) ∧
    (details &&& ScriptingEvents = 0 →
      Scripting details = ⟨none, none, none, none⟩) := by
  refine ⟨?_, ?_, ?_, ?_, ?_, fun h => Retry_disabled h,
    fun h => Scripting_disabled h⟩
  · by_cases hr : details &&& RetryEvents = 0 <;> simp [Retry, hr]
  all_goals by_cases hs : details &&& ScriptingEvents = 0 <;>
    simp [Scripting, hs]

/-- Witness for C10, at mask 0 (both implications discharged). -/
theorem c10_constructor_fields_witness :
    ((Retry 0).OnRetry.isSome ↔ (0 : Nat) &&& RetryEvents ≠ 0) ∧
    Retry 0 = ⟨none⟩ ∧ Scripting 0 = ⟨none, none, none, none⟩ :=
  ⟨(c10_constructor_fields 0).1,
   (c10_constructor_fields 0).2.2.2.2.2.1 (by decide),
   (c10_constructor_fields 0).2.2.2.2.2.2 (by decide)⟩

/-- C6: for every value whose natural string conversion fails, the
guarded formatter returns the fixed sentinel string (it is a total
function, so no fault reaches the caller), and the scripting execute
and stream-execute start handlers open their spans with that sentinel
as the rendered parameters. -/
theorem c6_guarded_formatter (v : StringerVal) (h : v.conv = none)
    (ctx : Nat) (q : String) (t : Tracer) :
    safeStringer v = stringerSentinel ∧
    ((onExecute ⟨ctx, q, v⟩ t).1).log =
      t.log ++ [TraceEvent.openSpan t.nextId "ydb_scripting_execute"
        [⟨"query", AttrValue.str q⟩,
         ⟨"params", AttrValue.str stringerSentinel⟩]] ∧
    ((onStreamExecute ⟨ctx, q, v⟩ t).1).log =
      t.log ++ [TraceEvent.openSpan t.nextId "ydb_scripting_stream_execute"
        [⟨"query", AttrValue.str q⟩,
         ⟨"params", AttrValue.str stringerSentinel⟩]] := by
  refine ⟨?_, ?_, ?_⟩ <;>
    simp [safeStringer, h, onExecute, onStreamExecute, startSpan]

/-- Witness for C6, at a concrete faulting value. -/
theorem c6_guarded_formatter_witness :
    (⟨none⟩ : StringerVal).conv = none ∧
    safeStringer ⟨none⟩ = stringerSentinel ∧
    ((onExecute ⟨0, "q", ⟨none⟩⟩ initTracer).1).log =
      initTracer.log ++
        [TraceEvent.openSpan initTracer.nextId "ydb_scripting_execute"
          [⟨"query", AttrValue.str "q"⟩,
           ⟨"params", AttrValue.str stringerSentinel⟩]] :=
  ⟨rfl, (c6_guarded_formatter ⟨none⟩ rfl 0 "q" initTracer).1,
   (c6_guarded_formatter ⟨none⟩ rfl 0 "q" initTracer).2.1⟩

/-- C4: for every enabled streaming chain (scripting stream-execute and
the retry loop) and every N, a call sequence of one start event, N
intermediate events and one terminal event makes the tracer observe the
log open-then-N-annotates-then-close, in that order: exactly one open,
exactly N annotate events, exactly one close. -/
theorem c4_streaming_log_shape (details : Nat)
    (hs : details &&& ScriptingEvents ≠ 0)
    (hr : details &&& RetryEvents ≠ 0)
    (s1 : ScriptingStreamExecuteStartInfo)
    (recs1 : List ScriptingStreamExecuteIntermediateInfo)
    (d1 : ScriptingStreamExecuteDoneInfo)
    (s2 : RetryLoopStartInfo) (recs2 : List RetryLoopIntermediateInfo)
    (d2 : RetryLoopDoneInfo) :
    ((runStreamExecuteTrace (Scripting details) s1 recs1 d1 initTracer).log =
       TraceEvent.openSpan 0 "ydb_scripting_stream_execute"
         [⟨"query", AttrValue.str s1.query⟩,
          ⟨"params", AttrValue.str (safeStringer s1.parameters)⟩] ::
       (recs1.map (fun r => TraceEvent.annotate 0 r.error []) ++
        [TraceEvent.closeSpan 0 (statusOfErr d1.error) []]) ∧
     countOpen
       (runStreamExecuteTrace (Scripting details) s1 recs1 d1 initTracer).log
       = 1 ∧
     countAnnotate
       (runStreamExecuteTrace (Scripting details) s1 recs1 d1 initTracer).log
       = recs1.length ∧
     countClose
       (runStreamExecuteTrace (Scripting details) s1 recs1 d1 initTracer).log
       = 1) ∧
    ((runRetryTrace (Retry details) s2 recs2 d2 initTracer).log =
       TraceEvent.openSpan 0 "ydb_retry"
         [⟨"idempotent", AttrValue.bool s2.idempotent⟩] ::
       (recs2.map (fun r => TraceEvent.annotate 0 r.error []) ++
        [TraceEvent.closeSpan 0 (statusOfErr d2.error)
          [⟨"attempts", AttrValue.int d2.attempts⟩]]) ∧
     countOpen (runRetryTrace (Retry details) s2 recs2 d2 initTracer).log
       = 1 ∧
     countAnnotate (runRetryTrace (Retry details) s2 recs2 d2 initTracer).log
       = recs2.length ∧
     countClose (runRetryTrace (Retry details) s2 recs2 d2 initTracer).log
       = 1) := by
  rw [Scripting_enabled hs, Retry_enabled hr, runStreamExecute_enabled,
    runRetry_enabled]
  exact ⟨⟨rfl, (counts_chain_log _ _ _ _ _ _ _).1,
      (counts_chain_log _ _ _ _ _ _ _).2.1,
      (counts_chain_log _ _ _ _ _ _ _).2.2⟩,
    ⟨rfl, (counts_chain_log _ _ _ _ _ _ _).1,
      (counts_chain_log _ _ _ _ _ _ _).2.1,
      (counts_chain_log _ _ _ _ _ _ _).2.2⟩⟩

/-- Witness for C4, at the mask with both bits set and N = 2
intermediate events on each chain. -/
theorem c4_streaming_log_shape_witness :
    (runStreamExecuteTrace (Scripting (ScriptingEvents ||| RetryEvents))
        ⟨0, "q2", ⟨some "p"⟩⟩ [⟨none⟩, ⟨some "x"⟩] ⟨some "y"⟩
        initTracer).log =
      TraceEvent.openSpan 0 "ydb_scripting_stream_execute"
        [⟨"query", AttrValue.str "q2"⟩,
         ⟨"params", AttrValue.str (safeStringer ⟨some "p"⟩)⟩] ::
      ([TraceEvent.annotate 0 none [], TraceEvent.annotate 0 (some "x") []] ++
       [TraceEvent.closeSpan 0 (statusOfErr (some "y")) []]) ∧
    countAnnotate (runStreamExecuteTrace
      (Scripting (ScriptingEvents ||| RetryEvents)) ⟨0, "q2", ⟨some "p"⟩⟩
      [⟨none⟩, ⟨some "x"⟩] ⟨some "y"⟩ initTracer).log = 2 ∧
    countClose (runRetryTrace (Retry (ScriptingEvents ||| RetryEvents))
      ⟨0, true⟩ [⟨none⟩, ⟨some "x"⟩] ⟨none, 5⟩ initTracer).log = 1 := by
  have h := c4_streaming_log_shape (ScriptingEvents ||| RetryEvents)
    (by decide) (by decide) ⟨0, "q2", ⟨some "p"⟩⟩ [⟨none⟩, ⟨some "x"⟩]
    ⟨some "y"⟩ ⟨0, true⟩ [⟨none⟩, ⟨some "x"⟩] ⟨none, 5⟩
  exact ⟨h.1.1, h.1.2.2.1, h.2.2.2.2⟩

/-- C3: on every enabled chain, a span opened by a start handler is
closed exactly once when the driver completes the chain, and invoking
the same terminal continuation a second time does not close the span
again: the completed log always holds exactly one close event, with or
without a duplicated terminal call. -/
theorem c3_span_closed_once (details : Nat)
    (hs : details &&& ScriptingEvents ≠ 0)
    (hr : details &&& RetryEvents ≠ 0)
    (s1 : RetryLoopStartInfo) (recs1 : List RetryLoopIntermediateInfo)
    (d1 d1b : RetryLoopDoneInfo)
    (s2 : ScriptingStreamExecuteStartInfo)
    (recs2 : List ScriptingStreamExecuteIntermediateInfo)
    (d2 d2b : ScriptingStreamExecuteDoneInfo)
    (s3 : ScriptingExecuteStartInfo) (d3 d3b : ScriptingExecuteDoneInfo)
    (s4 : ScriptingExplainStartInfo) (d4 d4b : ScriptingExplainDoneInfo)
    (s5 : ScriptingCloseStartInfo) (d5 d5b : ScriptingCloseDoneInfo) :
    countClose ((runRetryTrace (Retry details) s1 recs1 d1
      initTracer).log) = 1 ∧
    countClose ((runRetryTraceTwice (Retry details) s1 recs1 d1 d1b
      initTracer).log) = 1 ∧
    countClose ((runStreamExecuteTrace (Scripting details) s2 recs2 d2
      initTracer).log) = 1 ∧
    countClose ((runStreamExecuteTraceTwice (Scripting details) s2 recs2
      d2 d2b initTracer).log) = 1 ∧
    countClose ((runExecuteTrace (Scripting details) s3 d3
      initTracer).log) = 1 ∧
    countClose ((runExecuteTraceTwice (Scripting details) s3 d3 d3b
      initTracer).log) = 1 ∧
    countClose ((runExplainTraceTwice (Scripting details) s4 d4 d4b
      initTracer).log) = 1 ∧
    countClose ((runCloseTraceTwice (Scripting details) s5 d5 d5b
      initTracer).log) = 1 := by
  rw [Retry_enabled hr, Scripting_enabled hs, runRetry_enabled,
    runRetryTwice_enabled, runStreamExecute_enabled,
    runStreamExecuteTwice_enabled, runExecute_enabled,
    runExecuteTwice_enabled, runExplainTwice_enabled, runCloseTwice_enabled]
  refine ⟨(counts_chain_log _ _ _ _ _ _ _).2.2,
    (counts_chain_log _ _ _ _ _ _ _).2.2,
    (counts_chain_log _ _ _ _ _ _ _).2.2,
    (counts_chain_log _ _ _ _ _ _ _).2.2, ?_, ?_, ?_, ?_⟩ <;>
    simp [countClose, isClose]

/-- Witness for C3, duplicating the terminal call of the retry and
stream-execute chains at a concrete input. -/
theorem c3_span_closed_once_witness :
    countClose ((runRetryTraceTwice (Retry (ScriptingEvents ||| RetryEvents))
      ⟨0, false⟩ [⟨some "x"⟩] ⟨some "y", 2⟩ ⟨none, 2⟩ initTracer).log) = 1 ∧
    countClose ((runStreamExecuteTraceTwice
      (Scripting (ScriptingEvents ||| RetryEvents)) ⟨0, "q", ⟨some "p"⟩⟩
      [⟨none⟩] ⟨some "y"⟩ ⟨none⟩ initTracer).log) = 1 ∧
    countClose ((runExecuteTraceTwice
      (Scripting (ScriptingEvents ||| RetryEvents)) ⟨0, "q", ⟨some "p"⟩⟩
      ⟨none, none⟩ ⟨some "z", none⟩ initTracer).log) = 1 := by
  have h := c3_span_closed_once (ScriptingEvents ||| RetryEvents)
    (by decide) (by decide) ⟨0, false⟩ [⟨some "x"⟩] ⟨some "y", 2⟩ ⟨none, 2⟩
    ⟨0, "q", ⟨some "p"⟩⟩ [⟨none⟩] ⟨some "y"⟩ ⟨none⟩
    ⟨0, "q", ⟨some "p"⟩⟩ ⟨none, none⟩ ⟨some "z", none⟩
    ⟨0, "q"⟩ ⟨none⟩ ⟨none⟩ ⟨0⟩ ⟨none⟩ ⟨none⟩
  exact ⟨h.2.1, h.2.2.2.1, h.2.2.2.2.2.1⟩

/-- C7: on the enabled retry-loop chain the boolean "idempotent"
attribute is written exactly once, inside the open event, with the
start record's idempotency flag, and the integer "attempts" attribute
is written exactly once, inside the close event, with the done record's
final attempt count; intermediate annotations carry no attributes at
all. -/
theorem c7_retry_attributes (details : Nat)
    (hr : details &&& RetryEvents ≠ 0) (s : RetryLoopStartInfo)
    (recs : List RetryLoopIntermediateInfo) (d : RetryLoopDoneInfo) :
    (runRetryTrace (Retry details) s recs d initTracer).log =
      TraceEvent.openSpan 0 "ydb_retry"
        [⟨"idempotent", AttrValue.bool s.idempotent⟩] ::
      (recs.map (fun r => TraceEvent.annotate 0 r.error []) ++
       [TraceEvent.closeSpan 0 (statusOfErr d.error)
         [⟨"attempts", AttrValue.int d.attempts⟩]]) ∧
    countAttrEvents "idempotent"
      (runRetryTrace (Retry details) s recs d initTracer).log = 1 ∧
    countAttrEvents "attempts"
      (runRetryTrace (Retry details) s recs d initTracer).log = 1 ∧
    (∀ e ∈ recs.map (fun r => TraceEvent.annotate 0 r.error []),
      TraceEvent.attrs e = []) := by
  rw [Retry_enabled hr, runRetry_enabled]
  refine ⟨rfl, ?_, ?_, ?_⟩
  · simp [countAttrEvents, List.filter_append, filter_annotates_hasAttr,
      hasAttr, TraceEvent.attrs]
  · simp [countAttrEvents, List.filter_append, filter_annotates_hasAttr,
      hasAttr, TraceEvent.attrs]
  · intro e he
    rcases List.mem_map.mp he with ⟨r, _, rfl⟩
    rfl

/-- Witness for C7, at a concrete retry chain with one intermediate
event. -/
theorem c7_retry_attributes_witness :
    (runRetryTrace (Retry RetryEvents) ⟨0, true⟩ [⟨some "x"⟩]
      ⟨none, 4⟩ initTracer).log =
      TraceEvent.openSpan 0 "ydb_retry"
        [⟨"idempotent", AttrValue.bool true⟩] ::
      (([⟨some "x"⟩] : List RetryLoopIntermediateInfo).map
        (fun r => TraceEvent.annotate 0 r.error []) ++
       [TraceEvent.closeSpan 0 (statusOfErr none)
         [⟨"attempts", AttrValue.int 4⟩]]) ∧
    countAttrEvents "idempotent"
      (runRetryTrace (Retry RetryEvents) ⟨0, true⟩ [⟨some "x"⟩]
        ⟨none, 4⟩ initTracer).log = 1 ∧
    countAttrEvents "attempts"
      (runRetryTrace (Retry RetryEvents) ⟨0, true⟩ [⟨some "x"⟩]
        ⟨none, 4⟩ initTracer).log = 1 := by
  have h := c7_retry_attributes RetryEvents (by decide) ⟨0, true⟩
    [⟨some "x"⟩] ⟨none, 4⟩
  exact ⟨h.1, h.2.1, h.2.2.1⟩

/-- C8: on every enabled streaming chain the intermediate continuation
appends exactly one non-terminal annotate event derived from its
record's error, leaves the set of closed spans (and the close count)
unchanged, and returns the chain's terminal continuation. -/
theorem c8_intermediate_annotates_only (details : Nat)
    (hs : details &&& ScriptingEvents ≠ 0)
    (hr : details &&& RetryEvents ≠ 0) (t0 t : Tracer)
    (s1 : ScriptingStreamExecuteStartInfo)
    (r1 : ScriptingStreamExecuteIntermediateInfo)
    (s2 : RetryLoopStartInfo) (r2 : RetryLoopIntermediateInfo) :
    (Scripting details).OnStreamExecute = some onStreamExecute ∧
    (Retry details).OnRetry = some onRetry ∧
    ((((onStreamExecute s1 t0).2).onIntermediate r1 t).1).log =
      t.log ++ [TraceEvent.annotate t0.nextId r1.error []] ∧
    ((((onStreamExecute s1 t0).2).onIntermediate r1 t).1).closed =
      t.closed ∧
    countClose ((((onStreamExecute s1 t0).2).onIntermediate r1 t).1).log =
      countClose t.log ∧
    (((onStreamExecute s1 t0).2).onIntermediate r1 t).2 =
      ((onStreamExecute s1 t0).2).onDone ∧
    ((((onRetry s2 t0).2).onIntermediate r2 t).1).log =
      t.log ++ [TraceEvent.annotate t0.nextId r2.error []] ∧
    ((((onRetry s2 t0).2).onIntermediate r2 t).1).closed = t.closed ∧
    countClose ((((onRetry s2 t0).2).onIntermediate r2 t).1).log =
      countClose t.log ∧
    (((onRetry s2 t0).2).onIntermediate r2 t).2 =
      ((onRetry s2 t0).2).onDone := by
  refine ⟨by rw [Scripting_enabled hs], by rw [Retry_enabled hr],
    ?_, ?_, ?_, rfl, ?_, ?_, ?_, rfl⟩ <;>
    simp [onStreamExecute, onRetry, scriptingStreamIntermediate,
      retryIntermediate, intermediate, startSpan, countClose, isClose,
      List.filter_append]

/-- Witness for C8, at a concrete tracer state and record. -/
theorem c8_intermediate_annotates_only_witness :
    (Scripting (ScriptingEvents ||| RetryEvents)).OnStreamExecute =
      some onStreamExecute ∧
    ((((onStreamExecute ⟨0, "q", ⟨some "p"⟩⟩ initTracer).2).onIntermediate
        ⟨some "x"⟩ (onStreamExecute ⟨0, "q", ⟨some "p"⟩⟩ initTracer).1).1).log
      = ((onStreamExecute ⟨0, "q", ⟨some "p"⟩⟩ initTracer).1).log ++
        [TraceEvent.annotate initTracer.nextId (some "x") []] ∧
    (((onStreamExecute ⟨0, "q", ⟨some "p"⟩⟩ initTracer).2).onIntermediate
        ⟨some "x"⟩ (onStreamExecute ⟨0, "q", ⟨some "p"⟩⟩ initTracer).1).2 =
      ((onStreamExecute ⟨0, "q", ⟨some "p"⟩⟩ initTracer).2).onDone := by
  have h := c8_intermediate_annotates_only
    (ScriptingEvents ||| RetryEvents) (by decide) (by decide)
    initTracer (onStreamExecute ⟨0, "q", ⟨some "p"⟩⟩ initTracer).1
    ⟨0, "q", ⟨some "p"⟩⟩ ⟨some "x"⟩ ⟨0, false⟩ ⟨none⟩
  exact ⟨h.1, h.2.2.1, h.2.2.2.2.2.1⟩

/-- C1 counterexample: on the enabled scripting execute chain, a
terminal record whose error field is nil but whose result value carries
the error "boom" closes the span with status Error "boom", not OK - so
the final status is not determined only by the done record's error
field. -/
theorem c1_counterexample :
    (⟨none, some ⟨some "boom"⟩⟩ : ScriptingExecuteDoneInfo).error = none ∧
    closeStatuses ((runExecuteTrace (Scripting ScriptingEvents)
        ⟨0, "q", ⟨some "p"⟩⟩ ⟨none, some ⟨some "boom"⟩⟩ initTracer).log) =
      [SpanStatus.error "boom"] ∧
    SpanStatus.error "boom" ≠ SpanStatus.ok := by
  refine ⟨rfl, ?_, by decide⟩
  rw [Scripting_enabled (by decide), runExecute_enabled]
  rfl

/-- C1 (amended): on every enabled chain other than scripting execute
(retry loop, stream-execute, explain, close) the terminal status is
determined solely by the done record's error - nil gives OK, a non-nil
error gives Error with that error's text (this is `statusOfErr`); on
the scripting execute chain a non-nil driver error likewise gives Error
with its text, but a nil driver error yields the status of the error
extracted from the result value by the guarded helper. -/
theorem c1_status_from_error_amended (details : Nat)
    (hs : details &&& ScriptingEvents ≠ 0)
    (hr : details &&& RetryEvents ≠ 0)
    (s1 : RetryLoopStartInfo) (recs1 : List RetryLoopIntermediateInfo)
    (d1 : RetryLoopDoneInfo)
    (s2 : ScriptingStreamExecuteStartInfo)
    (recs2 : List ScriptingStreamExecuteIntermediateInfo)
    (d2 : ScriptingStreamExecuteDoneInfo)
    (s3 : ScriptingExecuteStartInfo) (d3 : ScriptingExecuteDoneInfo)
    (s4 : ScriptingExplainStartInfo) (d4 : ScriptingExplainDoneInfo)
    (s5 : ScriptingCloseStartInfo) (d5 : ScriptingCloseDoneInfo) :
    statusOfErr none = SpanStatus.ok ∧
    (∀ m, statusOfErr (some m) = SpanStatus.error m) ∧
    closeStatuses ((runRetryTrace (Retry details) s1 recs1 d1
      initTracer).log) = [statusOfErr d1.error] ∧
    closeStatuses ((runStreamExecuteTrace (Scripting details) s2 recs2 d2
      initTracer).log) = [statusOfErr d2.error] ∧
    closeStatuses ((runExplainTrace (Scripting details) s4 d4
      initTracer).log) = [statusOfErr d4.error] ∧
    closeStatuses ((runCloseTrace (Scripting details) s5 d5
      initTracer).log) = [statusOfErr d5.error] ∧
    closeStatuses ((runExecuteTrace (Scripting details) s3 d3
      initTracer).log) = [statusOfErr (executeFinalErr d3)] ∧
    (∀ m, d3.error = some m → executeFinalErr d3 = some m) ∧
    (d3.error = none → executeFinalErr d3 = safeErr d3.result) := by
  rw [Retry_enabled hr, Scripting_enabled hs, runRetry_enabled,
    runStreamExecute_enabled, runExplain_enabled, runClose_enabled,
    runExecute_enabled]
  refine ⟨rfl, fun m => rfl, closeStatuses_chain_log _ _ _ _ _ _ _,
    closeStatuses_chain_log _ _ _ _ _ _ _, ?_, ?_, ?_, ?_, ?_⟩
  · simp [closeStatuses, TraceEvent.closeStatus]
  · simp [closeStatuses, TraceEvent.closeStatus]
  · simp [closeStatuses, TraceEvent.closeStatus]
  · intro m hm
    simp [executeFinalErr, hm]
  · intro hm
    simp [executeFinalErr, hm]

/-- Witness for the amended C1, at a concrete mask and records. -/
theorem c1_status_from_error_amended_witness :
    closeStatuses ((runRetryTrace (Retry (ScriptingEvents ||| RetryEvents))
      ⟨0, true⟩ [] ⟨none, 1⟩ initTracer).log) = [statusOfErr none] ∧
    closeStatuses ((runStreamExecuteTrace
      (Scripting (ScriptingEvents ||| RetryEvents)) ⟨0, "q", ⟨some "p"⟩⟩ []
      ⟨some "y"⟩ initTracer).log) = [statusOfErr (some "y")] ∧
    closeStatuses ((runExecuteTrace
      (Scripting (ScriptingEvents ||| RetryEvents)) ⟨0, "q", ⟨some "p"⟩⟩
      ⟨some "z", none⟩ initTracer).log) =
      [statusOfErr (executeFinalErr ⟨some "z", none⟩)] := by
  have h := c1_status_from_error_amended (ScriptingEvents ||| RetryEvents)
    (by decide) (by decide) ⟨0, true⟩ [] ⟨none, 1⟩
    ⟨0, "q", ⟨some "p"⟩⟩ [] ⟨some "y"⟩
    ⟨0, "q", ⟨some "p"⟩⟩ ⟨some "z", none⟩ ⟨0, "q"⟩ ⟨none⟩ ⟨0⟩ ⟨none⟩
  exact ⟨h.2.2.1, h.2.2.2.1, h.2.2.2.2.2.2.1⟩

/-- C5: on the enabled scripting execute chain, a terminal record with
a nil driver error closes the span with the status of the error
extracted from the result value by the guarded helper - in particular a
nil driver error whose result value carries a non-nil error closes the
span with that result error. -/
theorem c5_execute_uses_result_error (details : Nat)
    (hs : details &&& ScriptingEvents ≠ 0)
    (s : ScriptingExecuteStartInfo) (res : Option ResultVal)
    (e : String) :
    closeStatuses ((runExecuteTrace (Scripting details) s ⟨none, res⟩
      initTracer).log) = [statusOfErr (safeErr res)] ∧
    (res = some ⟨some e⟩ →
      closeStatuses ((runExecuteTrace (Scripting details) s ⟨none, res⟩
        initTracer).log) = [SpanStatus.error e]) := by
  rw [Scripting_enabled hs, runExecute_enabled]
  constructor
  · simp [closeStatuses, TraceEvent.closeStatus, executeFinalErr]
  · intro he
    subst he
    simp [closeStatuses, TraceEvent.closeStatus, executeFinalErr, safeErr,
      statusOfErr]

/-- Witness for C5, at a result carrying the error "late". -/
theorem c5_execute_uses_result_error_witness :
    closeStatuses ((runExecuteTrace (Scripting ScriptingEvents)
      ⟨0, "q", ⟨some "p"⟩⟩ ⟨none, some ⟨some "late"⟩⟩ initTracer).log) =
      [statusOfErr (safeErr (some ⟨some "late"⟩))] ∧
    closeStatuses ((runExecuteTrace (Scripting ScriptingEvents)
      ⟨0, "q", ⟨some "p"⟩⟩ ⟨none, some ⟨some "late"⟩⟩ initTracer).log) =
      [SpanStatus.error "late"] := by
  have h := c5_execute_uses_result_error ScriptingEvents (by decide)
    ⟨0, "q", ⟨some "p"⟩⟩ (some ⟨some "late"⟩) "late"
  exact ⟨h.1, h.2 rfl⟩

/-- C9 counterexample: on the enabled scripting execute chain started
with query "q1", a terminal record with nil driver error whose result
carries the error "oops" produces the log open-then-close with status
Error "oops", not the claimed close with status OK. -/
theorem c9_counterexample :
    (⟨none, some ⟨some "oops"⟩⟩ : ScriptingExecuteDoneInfo).error = none ∧
    (runExecuteTrace (Scripting ScriptingEvents) ⟨0, "q1", ⟨some "p1"⟩⟩
        ⟨none, some ⟨some "oops"⟩⟩ initTracer).log =
      [TraceEvent.openSpan 0 "ydb_scripting_execute"
         [⟨"query", AttrValue.str "q1"⟩, ⟨"params", AttrValue.str "p1"⟩],
       TraceEvent.closeSpan 0 (SpanStatus.error "oops") []] ∧
    SpanStatus.error "oops" ≠ SpanStatus.ok := by
  refine ⟨rfl, ?_, by decide⟩
  rw [Scripting_enabled (by decide), runExecute_enabled]
  rfl

/-- C9 (amended): on every enabled scripting execute chain started with
query text q, the start handler opens the span with the attributes
query = q and the guarded stringification of the parameters, and a
terminal call with a nil driver error whose result's extracted error is
also nil closes that span with status OK: the observed log is exactly
open-then-close-OK. -/
theorem c9_execute_scenario_amended (details : Nat)
    (hs : details &&& ScriptingEvents ≠ 0)
    (s : ScriptingExecuteStartInfo) (d : ScriptingExecuteDoneInfo)
    (hd : d.error = none) (hres : safeErr d.result = none) :
    (runExecuteTrace (Scripting details) s d initTracer).log =
      [TraceEvent.openSpan 0 "ydb_scripting_execute"
         [⟨"query", AttrValue.str s.query⟩,
          ⟨"params", AttrValue.str (safeStringer s.parameters)⟩],
       TraceEvent.closeSpan 0 SpanStatus.ok []] := by
  rw [Scripting_enabled hs, runExecute_enabled]
  simp [executeFinalErr, hd, hres, statusOfErr]

/-- Witness for the amended C9, at query "q1" and an error-free
result. -/
theorem c9_execute_scenario_amended_witness :
    (runExecuteTrace (Scripting ScriptingEvents) ⟨0, "q1", ⟨some "p1"⟩⟩
        ⟨none, some ⟨none⟩⟩ initTracer).log =
      [TraceEvent.openSpan 0 "ydb_scripting_execute"
         [⟨"query", AttrValue.str "q1"⟩,
          ⟨"params", AttrValue.str (safeStringer ⟨some "p1"⟩)⟩],
       TraceEvent.closeSpan 0 SpanStatus.ok []] :=
  c9_execute_scenario_amended ScriptingEvents (by decide)
    ⟨0, "q1", ⟨some "p1"⟩⟩ ⟨none, some ⟨none⟩⟩ rfl rfl

end YdbOtel
